import Mathlib

/-!
Verification development for the sentry-consent-integration repository.

The definitions below are a shallow embedding of the consent integration
(`SentryConsentIntegrationClass` and its helpers in
`src/demo/src/hooks/useZarazConsentShortcuts.ts`, the tracked-configuration
utilities quoted in `src/README.md`, and the configuration constants in the
`configurationKeys` module).  JavaScript objects with optional keys become
structures with `Option` fields; `x ?? d` becomes `Option.getD`; a JS
truthiness test on an optional boolean becomes `Option.getD false`; callbacks
are opaque handles (`JsFun`), with the fresh blocking closure `() => null`
rendered as `JsFun.constNull`; numeric sample rates become rationals (they
are only stored and compared, never computed with); mutation of the instance
fields becomes explicit state passing over `IState`.
-/

/-- Opaque model of a JavaScript function value stored in the configuration:
either a user-supplied callback (identified by a handle) or the blocking
closure `() => null` the integration installs when a purpose is denied. -/
inductive JsFun where
  | constNull : JsFun
  | user : Nat → JsFun
deriving DecidableEq

/-- `ConsentState` from the source: one optional boolean per purpose; a
`none` field models a purpose whose getter the caller did not supply. -/
structure ConsentState where
  functional : Option Bool := none
  analytics : Option Bool := none
  marketing : Option Bool := none
  preferences : Option Bool := none
deriving DecidableEq

/-- A Sentry client options / configuration object.  Every key the
integration reads or writes is optional, matching an untyped JS object; `dsn`
stands for the keys the integration never touches. -/
structure ConfigObj where
  dsn : Option Nat := none
  enabled : Option Bool := none
  sampleRate : Option Rat := none
  beforeSend : Option JsFun := none
  autoSessionTracking : Option Bool := none
  maxBreadcrumbs : Option Nat := none
  attachStacktrace : Option Bool := none
  tracesSampleRate : Option Rat := none
  profilesSampleRate : Option Rat := none
  beforeBreadcrumb : Option JsFun := none
  beforeSendTransaction : Option JsFun := none
  sendDefaultPii : Option Bool := none
  replaysSessionSampleRate : Option Rat := none
  replaysOnErrorSampleRate : Option Rat := none
deriving DecidableEq

/-- The configuration patch built by `buildConsentBasedConfig`: the source
assigns every one of these keys on each call, so the fields are total.  The
callback fields keep an `Option` because the granted branches copy the
(possibly undefined) originals. -/
structure ConfigPatch where
  enabled : Bool
  sampleRate : Rat
  beforeSend : Option JsFun
  autoSessionTracking : Bool
  maxBreadcrumbs : Nat
  attachStacktrace : Bool
  tracesSampleRate : Rat
  profilesSampleRate : Rat
  beforeBreadcrumb : Option JsFun
  beforeSendTransaction : Option JsFun
  sendDefaultPii : Bool
  replaysSessionSampleRate : Rat
  replaysOnErrorSampleRate : Rat
deriving DecidableEq

/-- `SENTRY_DEFAULT_CONFIG` from the `configurationKeys` module: the nine
tracked keys with Sentry's built-in defaults (callbacks and `enabled` are not
tracked keys and are absent). -/
def SENTRY_DEFAULT_CONFIG : ConfigObj where
  attachStacktrace := some false
  autoSessionTracking := some true
  maxBreadcrumbs := some 100
  profilesSampleRate := some 0
  replaysOnErrorSampleRate := some 0
  replaysSessionSampleRate := some 0
  sampleRate := some 1
  sendDefaultPii := some false
  tracesSampleRate := some 0

/-- `buildTrackedConfigObject` from the utils module quoted in
`src/README.md`: builds an object holding only the nine tracked keys, each
`source[key] ?? SENTRY_DEFAULT_CONFIG[key]`. -/
def buildTrackedConfigObject (source : ConfigObj) : ConfigObj where
  attachStacktrace := some (source.attachStacktrace.getD false)
  autoSessionTracking := some (source.autoSessionTracking.getD true)
  maxBreadcrumbs := some (source.maxBreadcrumbs.getD 100)
  profilesSampleRate := some (source.profilesSampleRate.getD 0)
  replaysOnErrorSampleRate := some (source.replaysOnErrorSampleRate.getD 0)
  replaysSessionSampleRate := some (source.replaysSessionSampleRate.getD 0)
  sampleRate := some (source.sampleRate.getD 1)
  sendDefaultPii := some (source.sendDefaultPii.getD false)
  tracesSampleRate := some (source.tracesSampleRate.getD 0)

/-- `captureOriginalSentryConfig`: with a client, the tracked keys via
`buildTrackedConfigObject` plus the three callback options copied verbatim;
with no client, a copy of `SENTRY_DEFAULT_CONFIG`. -/
def captureOriginalSentryConfig (client : Option ConfigObj) : ConfigObj :=
  match client with
  | some options =>
      let base := buildTrackedConfigObject options
      { base with
          beforeSend := options.beforeSend
          beforeBreadcrumb := options.beforeBreadcrumb
          beforeSendTransaction := options.beforeSendTransaction }
  | none => SENTRY_DEFAULT_CONFIG

/-- Options of the replay integration instance, read from
`_recordingOptions` / `_initialOptions`; every field may be absent. -/
structure ReplayOptions where
  maskAllText : Option Bool := none
  maskAllInputs : Option Bool := none
  blockAllMedia : Option Bool := none
  networkCaptureBodies : Option Bool := none
deriving DecidableEq

/-- The replay integration instance as the integration observes it:
its two option objects, whether `stopRecording` / `startRecording` exist,
whether `startRecording` throws when called, and whether it is recording. -/
structure ReplayInstance where
  recordingOptions : Option ReplayOptions := none
  initialOptions : Option ReplayOptions := none
  hasStopRecording : Bool := true
  hasStartRecording : Bool := true
  startThrows : Bool := false
  recording : Bool := true
deriving DecidableEq

/-- The four privacy warnings `validateReplayPrivacySettings` can push. -/
inductive ReplayWarning where
  | maskAllText
  | maskAllInputs
  | blockAllMedia
  | networkCaptureBodies
deriving DecidableEq

/-- The warning list built by `validateReplayPrivacySettings`, in push
order; a strict `=== false` (resp. `=== true`) test means an absent option
contributes no warning. -/
def warningsOf (o : ReplayOptions) : List ReplayWarning :=
  (if o.maskAllText = some false then [ReplayWarning.maskAllText] else []) ++
  (if o.maskAllInputs = some false then [ReplayWarning.maskAllInputs] else []) ++
  (if o.blockAllMedia = some false then [ReplayWarning.blockAllMedia] else []) ++
  (if o.networkCaptureBodies = some true then [ReplayWarning.networkCaptureBodies] else [])

/-- `recordingOptions || initialOptions` from the source. -/
def effectiveReplayOptions (r : ReplayInstance) : Option ReplayOptions :=
  match r.recordingOptions with
  | some o => some o
  | none => r.initialOptions

/-- `attemptReplayResume`: if `startRecording` exists, call it and clear the
flag; the surrounding try/catch means a throwing `startRecording` leaves the
flag set; if the method is missing, only a log happens. -/
def attemptReplayResume (r : ReplayInstance) (flag : Bool) :
    Option ReplayInstance × Bool :=
  if r.hasStartRecording then
    if r.startThrows then (some r, flag)
    else (some { r with recording := true }, false)
  else (some r, flag)

/-- `validateReplayPrivacySettings`, as a function of the observable inputs
(client present, replay instance, current
`replayStoppedDueToUnsafeSettings`), returning the updated replay instance
and flag. -/
def validateReplayPrivacySettings (clientPresent : Bool)
    (replay : Option ReplayInstance) (flag : Bool) :
    Option ReplayInstance × Bool :=
  if !clientPresent then (replay, flag)
  else
    match replay with
    | none => (none, flag)
    | some r =>
        match effectiveReplayOptions r with
        | none => (some r, flag)
        | some replayOptions =>
            let warnings := warningsOf replayOptions
            if warnings.length > 0 then
              if r.hasStopRecording then
                (some { r with recording := false }, true)
              else (some r, flag)
            else
              if flag then attemptReplayResume r flag
              else (some r, flag)

/-- Original scope data captured by `captureOriginalScopeData` (user id,
tag and context assignments; values are opaque handles). -/
structure ScopeData where
  user : Option Nat := none
  tags : List (String × Nat) := []
  contexts : List (String × Nat) := []
deriving DecidableEq

/-- The Sentry scope as the integration mutates it; a `none` value stored
under a key models `setTag(key, undefined)` / `setContext(key, null)`. -/
structure Scope where
  user : Option Nat := none
  tags : List (String × Option Nat) := []
  contexts : List (String × Option Nat) := []
deriving DecidableEq

/-- Key-value store update used by the scope's `setTag` / `setContext`. -/
def setAssoc (l : List (String × Option Nat)) (k : String) (v : Option Nat) :
    List (String × Option Nat) :=
  if l.any (fun p => p.1 = k) then
    l.map (fun p => if p.1 = k then (k, v) else p)
  else l ++ [(k, v)]

/-- `scope.setTag`. -/
def Scope.setTag (sc : Scope) (k : String) (v : Option Nat) : Scope :=
  { sc with tags := setAssoc sc.tags k v }

/-- `scope.setContext`. -/
def Scope.setContext (sc : Scope) (k : String) (v : Option Nat) : Scope :=
  { sc with contexts := setAssoc sc.contexts k v }

/-- The fixed marketing-tag lexicon from `isMarketingTag`. -/
def marketingTagPatterns : List String :=
  ["campaign", "cohort", "segment", "experiment", "variant", "source",
   "medium", "channel", "funnel", "journey", "user_type", "subscription",
   "plan", "tier"]

/-- `isMarketingTag`: case-insensitive substring match against the lexicon. -/
def isMarketingTag (tagKey : String) : Bool :=
  marketingTagPatterns.any
    (fun pattern => decide (pattern.toList <:+: tagKey.toLower.toList))

/-- `updateSentryScope`: on denial, clear the user, clear the
marketing-patterned tags recorded in the original scope data and null the
three marketing context buckets; on grant, restore user, tags and contexts
from the original scope data. -/
def updateSentryScope (hasMarketingConsent : Bool) (origData : ScopeData)
    (scope : Scope) : Scope :=
  if !hasMarketingConsent then
    let s1 : Scope := { scope with user := none }
    let s2 := origData.tags.foldl
      (fun sc kv => if isMarketingTag kv.1 then sc.setTag kv.1 none else sc) s1
    ((s2.setContext "marketing" none).setContext "campaign" none).setContext
      "cohort" none
  else
    let s1 : Scope :=
      match origData.user with
      | some u => { scope with user := some u }
      | none => scope
    let s2 := origData.tags.foldl (fun sc kv => sc.setTag kv.1 (some kv.2)) s1
    origData.contexts.foldl (fun sc kv => sc.setContext kv.1 (some kv.2)) s2

/-- A captured telemetry event, with the fields the integration inspects. -/
structure Frame where
  filename : Option String := none
  lineno : Option Nat := none
deriving DecidableEq

/-- One entry of `exception.values`. -/
structure ExcValue where
  value : Option String := none
  frames : Option (List Frame) := none
deriving DecidableEq

/-- The `exception` part of an event. -/
structure ExceptionInfo where
  values : Option (List ExcValue) := none
deriving DecidableEq

/-- The event shape the integration branches on. -/
structure Event where
  etype : Option String := none
  event_id : Option String := none
  level : Option String := none
  message : Option String := none
  exception : Option ExceptionInfo := none
deriving DecidableEq

/-- A queued `{event, hint}` pair. -/
structure QueueEntry where
  event : Event
  hint : Nat
deriving DecidableEq

/-- The mutable instance state of `SentryConsentIntegrationClass`, together
with the external objects it reads and writes (client options, replay
instance, scope). -/
structure IState where
  isConsentReady : Bool := false
  hasConsent : Bool := false
  eventQueue : List QueueEntry := []
  currentConsentState : ConsentState := {}
  originalSentryConfig : ConfigObj := {}
  originalScopeData : ScopeData := {}
  replayStoppedDueToUnsafeSettings : Bool := false
  clientOptions : Option ConfigObj := none
  replay : Option ReplayInstance := none
  scope : Scope := {}
deriving DecidableEq

/-- `buildConsentBasedConfig`: the configuration patch assembled field by
field from the three purpose branches, plus the state effects the
preferences branch performs (flag reset when denied, replay-privacy
validation when granted). -/
def buildConsentBasedConfig (consentState : ConsentState) (st : IState) :
    ConfigPatch × IState :=
  let orig := st.originalSentryConfig
  let functionalDenied := !(consentState.functional.getD false)
  let analyticsDenied := !(consentState.analytics.getD false)
  let preferencesDenied := !(consentState.preferences.getD false)
  let patch : ConfigPatch := {
    enabled := if functionalDenied then false else true
    sampleRate := if functionalDenied then 0 else orig.sampleRate.getD 1
    beforeSend :=
      if functionalDenied then some JsFun.constNull else orig.beforeSend
    autoSessionTracking :=
      if functionalDenied then false else orig.autoSessionTracking.getD true
    maxBreadcrumbs :=
      if analyticsDenied then 0 else orig.maxBreadcrumbs.getD 100
    attachStacktrace :=
      if analyticsDenied then false else orig.attachStacktrace.getD false
    tracesSampleRate :=
      if analyticsDenied then 0 else orig.tracesSampleRate.getD 0
    profilesSampleRate :=
      if analyticsDenied then 0 else orig.profilesSampleRate.getD 0
    beforeBreadcrumb :=
      if analyticsDenied then some JsFun.constNull else orig.beforeBreadcrumb
    beforeSendTransaction :=
      if analyticsDenied then some JsFun.constNull
      else orig.beforeSendTransaction
    sendDefaultPii :=
      if preferencesDenied then false else orig.sendDefaultPii.getD false
    replaysSessionSampleRate :=
      if preferencesDenied then 0 else orig.replaysSessionSampleRate.getD 0
    replaysOnErrorSampleRate :=
      if preferencesDenied then 0 else orig.replaysOnErrorSampleRate.getD 0 }
  let st' :=
    if preferencesDenied then
      { st with replayStoppedDueToUnsafeSettings := false }
    else
      let vr := validateReplayPrivacySettings st.clientOptions.isSome
        st.replay st.replayStoppedDueToUnsafeSettings
      { st with replay := vr.1, replayStoppedDueToUnsafeSettings := vr.2 }
  (patch, st')

/-- `Object.assign(options, newConfig)`: every key of the patch overwrites
the corresponding key of the live options object. -/
def applyPatch (options : ConfigObj) (p : ConfigPatch) : ConfigObj :=
  { options with
      enabled := some p.enabled
      sampleRate := some p.sampleRate
      beforeSend := p.beforeSend
      autoSessionTracking := some p.autoSessionTracking
      maxBreadcrumbs := some p.maxBreadcrumbs
      attachStacktrace := some p.attachStacktrace
      tracesSampleRate := some p.tracesSampleRate
      profilesSampleRate := some p.profilesSampleRate
      beforeBreadcrumb := p.beforeBreadcrumb
      beforeSendTransaction := p.beforeSendTransaction
      sendDefaultPii := some p.sendDefaultPii
      replaysSessionSampleRate := some p.replaysSessionSampleRate
      replaysOnErrorSampleRate := some p.replaysOnErrorSampleRate }

/-- `applySentryConfiguration`: no-op without a client; otherwise build the
patch (with its side effects), assign it onto the client options, and run
the marketing scope update only when `consentState.marketing` is defined. -/
def applySentryConfiguration (consentState : ConsentState) (st : IState) :
    IState :=
  match st.clientOptions with
  | none => st
  | some options =>
      let built := buildConsentBasedConfig consentState st
      let st2 :=
        { built.2 with clientOptions := some (applyPatch options built.1) }
      match consentState.marketing with
      | some m =>
          { st2 with
              scope := updateSentryScope m st2.originalScopeData st2.scope }
      | none => st2

/-- `processEvent`: pass through when ready with consent, drop when ready
without consent, queue-and-drop while pending. -/
def processEvent (st : IState) (event : Event) (hint : Nat) :
    Option Event × IState :=
  if st.isConsentReady && st.hasConsent then (some event, st)
  else if st.isConsentReady && !st.hasConsent then (none, st)
  else (none, { st with eventQueue := st.eventQueue ++ [⟨event, hint⟩] })

/-- `clearEventQueue`. -/
def clearEventQueue (st : IState) : IState := { st with eventQueue := [] }

/-- `event.exception?.values?.[0]`, the value the replay loop branches on:
present exactly when the event has an exception with a non-empty values
array. -/
def firstExcValue (e : Event) : Option ExcValue :=
  match e.exception with
  | some exc =>
      match exc.values with
      | some (v :: _) => some v
      | some [] => none
      | none => none
  | none => none

/-- JS truthiness of `event.message` (an empty string is falsy). -/
def eventMessageTruthy (e : Event) : Bool :=
  match e.message with
  | some s => !(s = "")
  | none => false

/-- `event.message || "Queued message"`. -/
def messageOrDefault (e : Event) : String :=
  match e.message with
  | some s => if s = "" then "Queued message" else s
  | none => "Queued message"

/-- `exception.values[0].value || "Queued error"`. -/
def excMsg (v : ExcValue) : String :=
  match v.value with
  | some s => if s = "" then "Queued error" else s
  | none => "Queued error"

/-- One line of the rebuilt stack:
`(f.filename || "unknown") ++ ":" ++ (f.lineno || 0)`. -/
def frameLine (f : Frame) : String :=
  let fname :=
    match f.filename with
    | some s => if s = "" then "unknown" else s
    | none => "unknown"
  fname ++ ":" ++ toString (f.lineno.getD 0)

/-- The stack string rebuilt from `stacktrace?.frames ?? []`. -/
def excStack (v : ExcValue) : String :=
  String.intercalate "\n" ((v.frames.getD []).map frameLine)

/-- The Sentry API call chosen when a queued event is re-submitted. -/
inductive CaptureOp where
  | capturedException (message : String) (stack : String)
  | capturedMessage (message : String) (level : Option String)
  | capturedEvent (event : Event) (hint : Nat)
deriving DecidableEq

/-- What happened to one queued entry during a drain pass. -/
inductive ReplayOutcome where
  | attempted (op : CaptureOp) (ok : Bool)
  | discarded
deriving DecidableEq

/-- The re-capture branch of `processQueuedEvents`: exception re-capture if
the event has exception values, message capture if it has a (truthy)
message, otherwise generic `captureEvent`. -/
def replayCaptureOp (event : Event) (hint : Nat) : CaptureOp :=
  match firstExcValue event with
  | some v => CaptureOp.capturedException (excMsg v) (excStack v)
  | none =>
      if eventMessageTruthy event then
        CaptureOp.capturedMessage (messageOrDefault event) event.level
      else CaptureOp.capturedEvent event hint

/-- The drain loop of `processQueuedEvents` over a snapshot of the queue.
`fails i` says whether the i-th re-capture call throws; the `try`/`catch`
around each call swallows the failure so the loop always continues. -/
def processQueuedEvents (hasConsent : Bool) (fails : Nat → Bool) :
    Nat → List QueueEntry → List ReplayOutcome
  | _, [] => []
  | i, ent :: rest =>
      (if hasConsent then
        ReplayOutcome.attempted (replayCaptureOp ent.event ent.hint) (!fails i)
      else ReplayOutcome.discarded) ::
        processQueuedEvents hasConsent fails (i + 1) rest

/-- `handleReplayConsentChange`, also reporting whether the body past the
`previous === new` guard ran. -/
def handleReplayConsentChange (previousPreferencesConsent : Option Bool)
    (newPreferencesConsent : Option Bool) (st : IState) : IState × Bool :=
  if previousPreferencesConsent = newPreferencesConsent then (st, false)
  else
    let st1 :=
      if newPreferencesConsent.getD false &&
          st.replayStoppedDueToUnsafeSettings then
        let vr := validateReplayPrivacySettings st.clientOptions.isSome
          st.replay st.replayStoppedDueToUnsafeSettings
        { st with replay := vr.1, replayStoppedDueToUnsafeSettings := vr.2 }
      else st
    let st2 :=
      if !(newPreferencesConsent.getD false) then
        { st1 with replayStoppedDueToUnsafeSettings := false }
      else st1
    (st2, true)

/-- The consent-change pass registered in `listenForConsentChanges`,
parameterised by the freshly computed consent state.  Note the source
assigns `this.currentConsentState = newConsentState` and only afterwards
passes `this.currentConsentState.preferences` as the previous value to
`handleReplayConsentChange`; the embedding keeps that order.  The boolean
result reports whether the replay-guard reaction (the body of
`handleReplayConsentChange` past its equality guard) ran.  The queue drain
on a grant is `void processQueuedEvents()`; its capture operations are
modelled by `processQueuedEvents`, its state effect empties the queue. -/
def consentChangeTriggered (newConsentState : ConsentState) (st : IState) :
    IState × Bool :=
  let currentConsent := newConsentState.functional.getD false
  if currentConsent != st.hasConsent ||
      newConsentState != st.currentConsentState then
    let st1 := { st with
      hasConsent := currentConsent
      currentConsentState := newConsentState }
    let st2 := applySentryConfiguration newConsentState st1
    let hr := handleReplayConsentChange st2.currentConsentState.preferences
      newConsentState.preferences st2
    let st3 := if currentConsent then { hr.1 with eventQueue := [] } else hr.1
    (st3, hr.2)
  else (st, false)

/-- The timeout callback scheduled by `initializeConsentMonitoring` when the
initial consent read throws: mark ready, record no consent, and clear the
queue.  The returned list is the capture operations the handler performs
(none: `clearEventQueue` discards without replaying). -/
def consentTimeoutHandler (st : IState) : IState × List ReplayOutcome :=
  (clearEventQueue { st with isConsentReady := true, hasConsent := false },
    [])

/-- The injected consent getters: for each purpose, `none` when the caller
supplied no getter, otherwise the value the getter returns on this call
(`Except.error` models a throwing getter). -/
structure ConsentStateGetters where
  functional : Option (Except Unit Bool) := none
  analytics : Option (Except Unit Bool) := none
  marketing : Option (Except Unit Bool) := none
  preferences : Option (Except Unit Bool) := none

/-- One `if (getter) state.p = getter()` step of `getConsentState`. -/
def readGetter : Option (Except Unit Bool) → Except Unit (Option Bool)
  | none => Except.ok none
  | some (Except.ok b) => Except.ok (some b)
  | some (Except.error e) => Except.error e

/-- `getConsentState`: read the four getters in source order; any throw
propagates (the source catches, logs and rethrows). -/
def getConsentState (g : ConsentStateGetters) : Except Unit ConsentState := do
  let f ← readGetter g.functional
  let a ← readGetter g.analytics
  let m ← readGetter g.marketing
  let p ← readGetter g.preferences
  pure { functional := f, analytics := a, marketing := m, preferences := p }

/-- `handleConsentState`: retain the snapshot, mark ready, set `hasConsent`
to `functional ?? false`, apply the derived configuration, then drain the
queue (grant) or clear it (denial); either way the queue is left empty, and
the drain's capture operations are modelled by `processQueuedEvents`. -/
def handleConsentState (consentState : ConsentState) (st : IState) : IState :=
  let hasConsent := consentState.functional.getD false
  let st1 := { st with
    currentConsentState := consentState
    isConsentReady := true
    hasConsent := hasConsent }
  let st2 := applySentryConfiguration consentState st1
  if hasConsent then { st2 with eventQueue := [] } else clearEventQueue st2

/-- `initializeConsentMonitoring`: try the initial read; on success handle
it, on a throw leave the state pending and schedule the timeout (the second
component records that the timeout was scheduled; its later firing is
`consentTimeoutHandler`). -/
def initializeConsentMonitoring (g : ConsentStateGetters) (st : IState) :
    IState × Bool :=
  match getConsentState g with
  | Except.ok initialState => (handleConsentState initialState st, false)
  | Except.error _ => (st, true)

/-- `checkAndResumeReplay`: `false` if the flag is not set or preferences
consent in the retained snapshot is not truthy; otherwise re-run the
privacy validation and return whether it cleared the flag. -/
def checkAndResumeReplay (st : IState) : Bool × IState :=
  if !st.replayStoppedDueToUnsafeSettings then (false, st)
  else if !(st.currentConsentState.preferences.getD false) then (false, st)
  else
    let vr := validateReplayPrivacySettings st.clientOptions.isSome st.replay
      st.replayStoppedDueToUnsafeSettings
    let st1 := { st with
      replay := vr.1
      replayStoppedDueToUnsafeSettings := vr.2 }
    (!st1.replayStoppedDueToUnsafeSettings, st1)

/-! Concrete inputs used by counterexamples and witnesses. -/

/-- An all-denied consent snapshot. -/
def allDeniedConsent : ConsentState :=
  { functional := some false, analytics := some false,
    marketing := some false, preferences := some false }

/-- An all-granted consent snapshot. -/
def allGrantedConsent : ConsentState :=
  { functional := some true, analytics := some true,
    marketing := some true, preferences := some true }

/-- Client options resembling the demo's `Sentry.init` call. -/
def demoClientOptions : ConfigObj :=
  { dsn := some 1, sampleRate := some (33/50), maxBreadcrumbs := some 87,
    attachStacktrace := some true, autoSessionTracking := some true,
    sendDefaultPii := some true, tracesSampleRate := some (4/5),
    profilesSampleRate := some (1/5),
    replaysSessionSampleRate := some (3/10),
    replaysOnErrorSampleRate := some (1/5),
    beforeSend := some (JsFun.user 5) }

/-- Replay options with masking disabled: one privacy warning. -/
def unsafeReplayOptions : ReplayOptions := { maskAllText := some false }

/-- Replay options with nothing unsafe set: an empty warning list. -/
def safeReplayOptions : ReplayOptions := {}

/-- A replay instance with unsafe options whose `stopRecording` method is
missing. -/
def replayNoStop : ReplayInstance :=
  { recordingOptions := some unsafeReplayOptions, hasStopRecording := false }

/-- A replay instance with safe options and a working `startRecording`. -/
def replaySafe : ReplayInstance := { recordingOptions := some safeReplayOptions }

/-- A minimal captured event. -/
def demoEvent : Event := { event_id := some "e1" }

/-- A fresh integration state still pending, with one queued event. -/
def pendingState : IState := { eventQueue := [⟨demoEvent, 0⟩] }

/-- A ready state whose retained snapshot granted functional consent. -/
def readyGrantedState : IState :=
  { isConsentReady := true, hasConsent := true,
    currentConsentState := { functional := some true } }

/-- A ready state whose retained snapshot denied functional consent. -/
def readyDeniedState : IState :=
  { isConsentReady := true, hasConsent := false,
    currentConsentState := { functional := some false } }

/-- A state with the replay guard flag set, safe replay options, a client,
and preferences consent granted in the retained snapshot. -/
def flaggedState : IState :=
  { replayStoppedDueToUnsafeSettings := true,
    clientOptions := some demoClientOptions,
    replay := some replaySafe,
    currentConsentState := { preferences := some true } }

/-- A state with a client and a user on the scope, used to compare the
marketing-undefined and marketing-denied passes. -/
def scopedState : IState :=
  { clientOptions := some demoClientOptions, scope := { user := some 7 } }

/-- A ready state before a change pass in which preferences consent flips
from `false` to `true`. -/
def beforeChangeState : IState :=
  { isConsentReady := true, hasConsent := false,
    currentConsentState :=
      { functional := some false, preferences := some false },
    replayStoppedDueToUnsafeSettings := true,
    clientOptions := some demoClientOptions,
    replay := some replaySafe }

/-- The newly computed snapshot of that change pass: preferences granted. -/
def newChangeConsent : ConsentState :=
  { functional := some false, preferences := some true }

/-- Functional denied, analytics and preferences granted. -/
def partialConsent : ConsentState :=
  { functional := some false, analytics := some true,
    preferences := some true }

/-- A consent snapshot with no marketing getter supplied. -/
def marketingUndefinedConsent : ConsentState := { functional := some true }

/-- The same snapshot with marketing explicitly denied. -/
def marketingDeniedConsent : ConsentState :=
  { functional := some true, marketing := some false }

/-- A state whose original configuration was captured from the demo client
options. -/
def capturedOriginalState : IState :=
  { originalSentryConfig := captureOriginalSentryConfig (some demoClientOptions),
    clientOptions := some demoClientOptions }

/-- A replay instance with unsafe options and a working `stopRecording`. -/
def replayUnsafe : ReplayInstance :=
  { recordingOptions := some unsafeReplayOptions }

/-- The first exception value of the demo error event. -/
def excEventValue : ExcValue := { value := some "boom" }

/-- An event with exception values. -/
def excEvent : Event :=
  { exception := some { values := some [excEventValue] } }

/-- An event with only a message. -/
def msgEvent : Event := { message := some "hello" }

/-! Helper lemmas shared by several claims. -/

/-- The state component of `buildConsentBasedConfig`, made explicit. -/
theorem buildConsentBasedConfig_snd (cs : ConsentState) (st : IState) :
    (buildConsentBasedConfig cs st).2 =
      if !(cs.preferences.getD false) then
        { st with replayStoppedDueToUnsafeSettings := false }
      else
        { st with
            replay := (validateReplayPrivacySettings st.clientOptions.isSome
              st.replay st.replayStoppedDueToUnsafeSettings).1
            replayStoppedDueToUnsafeSettings :=
              (validateReplayPrivacySettings st.clientOptions.isSome
                st.replay st.replayStoppedDueToUnsafeSettings).2 } := rfl

/-- `buildConsentBasedConfig` never changes the retained consent snapshot. -/
theorem buildConsentBasedConfig_ccs (cs : ConsentState) (st : IState) :
    (buildConsentBasedConfig cs st).2.currentConsentState =
      st.currentConsentState := by
  rw [buildConsentBasedConfig_snd]; split <;> rfl

/-- `buildConsentBasedConfig` never changes the scope. -/
theorem buildConsentBasedConfig_scope (cs : ConsentState) (st : IState) :
    (buildConsentBasedConfig cs st).2.scope = st.scope := by
  rw [buildConsentBasedConfig_snd]; split <;> rfl

/-- `buildConsentBasedConfig` never changes the captured original config. -/
theorem buildConsentBasedConfig_orig (cs : ConsentState) (st : IState) :
    (buildConsentBasedConfig cs st).2.originalSentryConfig =
      st.originalSentryConfig := by
  rw [buildConsentBasedConfig_snd]; split <;> rfl

/-- `buildConsentBasedConfig` never changes the client options it reads. -/
theorem buildConsentBasedConfig_client (cs : ConsentState) (st : IState) :
    (buildConsentBasedConfig cs st).2.clientOptions = st.clientOptions := by
  rw [buildConsentBasedConfig_snd]; split <;> rfl

/-- `applySentryConfiguration` never changes the retained snapshot. -/
theorem applySentryConfiguration_ccs (cs : ConsentState) (st : IState) :
    (applySentryConfiguration cs st).currentConsentState =
      st.currentConsentState := by
  unfold applySentryConfiguration
  rcases hco : st.clientOptions with _ | options
  · rfl
  · dsimp only
    rcases hm : cs.marketing with _ | m <;>
      simp [buildConsentBasedConfig_ccs]

/-- Claim C1: `processEvent` passes the event through exactly when readiness
is `Ready` and the retained functional consent is true; drops it when ready
without consent; queues `{event, hint}` and returns null while pending; and
whenever the retained snapshot's functional consent is false or undefined
(fail-closed) it never returns the event. -/
theorem c1_processEvent_gating (st : IState) (e : Event) (hint : Nat) :
    (st.isConsentReady = true → st.hasConsent = true →
      processEvent st e hint = (some e, st)) ∧
    (st.isConsentReady = true → st.hasConsent = false →
      processEvent st e hint = (none, st)) ∧
    (st.isConsentReady = false →
      processEvent st e hint =
        (none, { st with eventQueue := st.eventQueue ++ [⟨e, hint⟩] })) ∧
    (st.hasConsent = st.currentConsentState.functional.getD false →
      st.currentConsentState.functional.getD false = false →
      (processEvent st e hint).1 = none) := by
  refine ⟨fun h1 h2 => ?_, fun h1 h2 => ?_, fun h1 => ?_, fun h1 h2 => ?_⟩
  · simp [processEvent, h1, h2]
  · simp [processEvent, h1, h2]
  · simp [processEvent, h1]
  · have hc : st.hasConsent = false := by rw [h1, h2]
    cases hr : st.isConsentReady <;> simp [processEvent, hr, hc]

/-- Witness for C1 at concrete states. -/
theorem c1_processEvent_gating_witness :
    processEvent readyGrantedState demoEvent 0 =
      (some demoEvent, readyGrantedState) ∧
    processEvent readyDeniedState demoEvent 0 = (none, readyDeniedState) ∧
    (processEvent pendingState demoEvent 1).1 = none :=
  ⟨(c1_processEvent_gating readyGrantedState demoEvent 0).1 rfl rfl,
   (c1_processEvent_gating readyDeniedState demoEvent 0).2.1 rfl rfl,
   (c1_processEvent_gating pendingState demoEvent 1).2.2.2 rfl rfl⟩

/-- Claim C2: the configuration patch gates each purpose's fields
independently; denied purposes force the restrictive values listed, granted
purposes restore the listed fields from the OriginalConfig snapshot, and in
particular functional denied with analytics and preferences granted gives
enabled=false and sampleRate=0 while maxBreadcrumbs and sendDefaultPii keep
their original values. -/
theorem c2_config_purpose_gating (cs : ConsentState) (st : IState) :
    ((cs.functional.getD false = false →
        (buildConsentBasedConfig cs st).1.enabled = false ∧
        (buildConsentBasedConfig cs st).1.sampleRate = 0 ∧
        (buildConsentBasedConfig cs st).1.beforeSend = some JsFun.constNull ∧
        (buildConsentBasedConfig cs st).1.autoSessionTracking = false) ∧
      (cs.analytics.getD false = false →
        (buildConsentBasedConfig cs st).1.maxBreadcrumbs = 0 ∧
        (buildConsentBasedConfig cs st).1.attachStacktrace = false ∧
        (buildConsentBasedConfig cs st).1.tracesSampleRate = 0 ∧
        (buildConsentBasedConfig cs st).1.profilesSampleRate = 0 ∧
        (buildConsentBasedConfig cs st).1.beforeBreadcrumb =
          some JsFun.constNull ∧
        (buildConsentBasedConfig cs st).1.beforeSendTransaction =
          some JsFun.constNull) ∧
      (cs.preferences.getD false = false →
        (buildConsentBasedConfig cs st).1.sendDefaultPii = false ∧
        (buildConsentBasedConfig cs st).1.replaysSessionSampleRate = 0 ∧
        (buildConsentBasedConfig cs st).1.replaysOnErrorSampleRate = 0)) ∧
    ((cs.functional = some true →
        (buildConsentBasedConfig cs st).1.enabled = true ∧
        (buildConsentBasedConfig cs st).1.beforeSend =
          st.originalSentryConfig.beforeSend ∧
        (∀ r, st.originalSentryConfig.sampleRate = some r →
          (buildConsentBasedConfig cs st).1.sampleRate = r) ∧
        (∀ b, st.originalSentryConfig.autoSessionTracking = some b →
          (buildConsentBasedConfig cs st).1.autoSessionTracking = b)) ∧
      (cs.analytics = some true →
        (buildConsentBasedConfig cs st).1.beforeBreadcrumb =
          st.originalSentryConfig.beforeBreadcrumb ∧
        (buildConsentBasedConfig cs st).1.beforeSendTransaction =
          st.originalSentryConfig.beforeSendTransaction ∧
        (∀ n, st.originalSentryConfig.maxBreadcrumbs = some n →
          (buildConsentBasedConfig cs st).1.maxBreadcrumbs = n) ∧
        (∀ b, st.originalSentryConfig.attachStacktrace = some b →
          (buildConsentBasedConfig cs st).1.attachStacktrace = b) ∧
        (∀ r, st.originalSentryConfig.tracesSampleRate = some r →
          (buildConsentBasedConfig cs st).1.tracesSampleRate = r) ∧
        (∀ r, st.originalSentryConfig.profilesSampleRate = some r →
          (buildConsentBasedConfig cs st).1.profilesSampleRate = r)) ∧
      (cs.preferences = some true →
        (∀ b, st.originalSentryConfig.sendDefaultPii = some b →
          (buildConsentBasedConfig cs st).1.sendDefaultPii = b) ∧
        (∀ r, st.originalSentryConfig.replaysSessionSampleRate = some r →
          (buildConsentBasedConfig cs st).1.replaysSessionSampleRate = r) ∧
        (∀ r, st.originalSentryConfig.replaysOnErrorSampleRate = some r →
          (buildConsentBasedConfig cs st).1.replaysOnErrorSampleRate = r))) ∧
    (cs.functional.getD false = false → cs.analytics = some true →
      cs.preferences = some true →
      (buildConsentBasedConfig cs st).1.enabled = false ∧
      (buildConsentBasedConfig cs st).1.sampleRate = 0 ∧
      (∀ n, st.originalSentryConfig.maxBreadcrumbs = some n →
        (buildConsentBasedConfig cs st).1.maxBreadcrumbs = n) ∧
      (∀ b, st.originalSentryConfig.sendDefaultPii = some b →
        (buildConsentBasedConfig cs st).1.sendDefaultPii = b)) := by
  refine ⟨⟨fun h => ?_, fun h => ?_, fun h => ?_⟩,
    ⟨fun h => ⟨?_, ?_, fun r hr => ?_, fun b hb => ?_⟩,
     fun h => ⟨?_, ?_, fun n hn => ?_, fun b hb => ?_, fun r hr => ?_,
       fun r hr => ?_⟩,
     fun h => ⟨fun b hb => ?_, fun r hr => ?_, fun r hr => ?_⟩⟩,
    fun h1 h2 h3 => ⟨?_, ?_, fun n hn => ?_, fun b hb => ?_⟩⟩ <;>
  simp [buildConsentBasedConfig, *]

/-- Witness for C2: functional denied, analytics and preferences granted,
over the configuration captured from the demo client options. -/
theorem c2_config_purpose_gating_witness :
    (buildConsentBasedConfig partialConsent capturedOriginalState).1.enabled
      = false ∧
    (buildConsentBasedConfig partialConsent capturedOriginalState).1.sampleRate
      = 0 ∧
    (buildConsentBasedConfig partialConsent
      capturedOriginalState).1.maxBreadcrumbs = 87 ∧
    (buildConsentBasedConfig partialConsent
      capturedOriginalState).1.sendDefaultPii = true :=
  ⟨((c2_config_purpose_gating partialConsent capturedOriginalState).2.2
      rfl rfl rfl).1,
   ((c2_config_purpose_gating partialConsent capturedOriginalState).2.2
      rfl rfl rfl).2.1,
   ((c2_config_purpose_gating partialConsent capturedOriginalState).2.2
      rfl rfl rfl).2.2.1 87 rfl,
   ((c2_config_purpose_gating partialConsent capturedOriginalState).2.2
      rfl rfl rfl).2.2.2 true rfl⟩

/-- Counterexample to C3 as stated: after the timeout fires, the retained
ConsentState does not become all-false — it stays exactly what it was (all
undefined in the initial-read-failed scenario). -/
theorem c3_timeout_counterexample :
    (consentTimeoutHandler pendingState).1.isConsentReady = true ∧
    (consentTimeoutHandler pendingState).1.eventQueue = [] ∧
    (consentTimeoutHandler pendingState).1.currentConsentState ≠
      allDeniedConsent := by
  refine ⟨rfl, rfl, ?_⟩; decide

/-- Claim C3 (amended): when the timeout fires, the system becomes Ready
with `hasConsent = false`, every queued event is discarded without any
re-capture, and the retained ConsentState is left unchanged — in the
initial-read-failure scenario it is still the empty snapshot, whose every
purpose reads as not granted under fail-closed defaulting. -/
theorem c3_timeout_fallback (st : IState) :
    (consentTimeoutHandler st).1.isConsentReady = true ∧
    (consentTimeoutHandler st).1.hasConsent = false ∧
    (consentTimeoutHandler st).1.eventQueue = [] ∧
    (consentTimeoutHandler st).2 = [] ∧
    (consentTimeoutHandler st).1.currentConsentState =
      st.currentConsentState ∧
    (st.currentConsentState = {} →
      (consentTimeoutHandler
        st).1.currentConsentState.functional.getD false = false ∧
      (consentTimeoutHandler
        st).1.currentConsentState.analytics.getD false = false ∧
      (consentTimeoutHandler
        st).1.currentConsentState.marketing.getD false = false ∧
      (consentTimeoutHandler
        st).1.currentConsentState.preferences.getD false = false) := by
  refine ⟨rfl, rfl, rfl, rfl, rfl, fun h => ?_⟩
  simp [consentTimeoutHandler, clearEventQueue, h]

/-- Witness for C3 at the fresh pending state with one queued event. -/
theorem c3_timeout_fallback_witness :
    (consentTimeoutHandler pendingState).1.hasConsent = false ∧
    (consentTimeoutHandler pendingState).1.eventQueue = [] ∧
    (consentTimeoutHandler
      pendingState).1.currentConsentState.functional.getD false = false :=
  ⟨(c3_timeout_fallback pendingState).2.1,
   (c3_timeout_fallback pendingState).2.2.1,
   ((c3_timeout_fallback pendingState).2.2.2.2.2 rfl).1⟩

/-- Counterexample to C4 as stated: with no marketing getter the scope
update is skipped outright — the user identity survives — whereas an
explicit marketing denial clears it, so undefined is not treated as denied
for the marketing-gated scope clearing. -/
theorem c4_marketing_undefined_counterexample :
    (applySentryConfiguration marketingUndefinedConsent
      scopedState).scope.user = some 7 ∧
    (applySentryConfiguration marketingDeniedConsent
      scopedState).scope.user = none := ⟨rfl, rfl⟩

/-- Claim C4 (amended): purposes with no getter are fail-closed in the
derived configuration (undefined takes every denied value), but the
marketing-gated scope update is skipped entirely when marketing is
undefined: the scope is left untouched rather than cleared as if denied. -/
theorem c4_fail_closed (cs : ConsentState) (st : IState) :
    (cs.functional = none →
      (buildConsentBasedConfig cs st).1.enabled = false ∧
      (buildConsentBasedConfig cs st).1.sampleRate = 0 ∧
      (buildConsentBasedConfig cs st).1.beforeSend = some JsFun.constNull ∧
      (buildConsentBasedConfig cs st).1.autoSessionTracking = false) ∧
    (cs.analytics = none →
      (buildConsentBasedConfig cs st).1.maxBreadcrumbs = 0 ∧
      (buildConsentBasedConfig cs st).1.attachStacktrace = false ∧
      (buildConsentBasedConfig cs st).1.tracesSampleRate = 0 ∧
      (buildConsentBasedConfig cs st).1.profilesSampleRate = 0 ∧
      (buildConsentBasedConfig cs st).1.beforeBreadcrumb =
        some JsFun.constNull ∧
      (buildConsentBasedConfig cs st).1.beforeSendTransaction =
        some JsFun.constNull) ∧
    (cs.preferences = none →
      (buildConsentBasedConfig cs st).1.sendDefaultPii = false ∧
      (buildConsentBasedConfig cs st).1.replaysSessionSampleRate = 0 ∧
      (buildConsentBasedConfig cs st).1.replaysOnErrorSampleRate = 0) ∧
    (cs.marketing = none →
      (applySentryConfiguration cs st).scope = st.scope) := by
  refine ⟨fun h => ?_, fun h => ?_, fun h => ?_, fun h => ?_⟩
  · simp [buildConsentBasedConfig, h]
  · simp [buildConsentBasedConfig, h]
  · simp [buildConsentBasedConfig, h]
  · unfold applySentryConfiguration
    rcases hco : st.clientOptions with _ | options
    · rfl
    · simp [h, buildConsentBasedConfig_scope]

/-- Witness for C4 at concrete inputs. -/
theorem c4_fail_closed_witness :
    (buildConsentBasedConfig ({} : ConsentState) scopedState).1.enabled
      = false ∧
    (applySentryConfiguration marketingUndefinedConsent scopedState).scope =
      scopedState.scope :=
  ⟨((c4_fail_closed ({} : ConsentState) scopedState).1 rfl).1,
   (c4_fail_closed marketingUndefinedConsent scopedState).2.2.2 rfl⟩

/-- Counterexample to C5 as stated: with unsafe options but no
`stopRecording` method on the replay instance, the validation neither stops
recording nor sets the flag, though the warning list is non-empty. -/
theorem c5_validate_counterexample :
    warningsOf unsafeReplayOptions ≠ [] ∧
    validateReplayPrivacySettings true (some replayNoStop) false =
      (some replayNoStop, false) ∧
    replayNoStop.recording = true := by
  refine ⟨by decide, rfl, rfl⟩

/-- Claim C5 (amended): the validation builds its warning list from exactly
the four option conditions (absent options contribute nothing); when the
list is non-empty it stops recording and sets the flag provided the stop
operation exists, and otherwise changes nothing; when the list is empty and
the flag was set it attempts resume, clearing the flag exactly on success
and leaving it set when `startRecording` is unavailable or throws; and it
is a no-op when the client, the replay instance, or its effective options
are absent. -/
theorem c5_validate_characterization :
    (∀ o : ReplayOptions,
      (ReplayWarning.maskAllText ∈ warningsOf o ↔
        o.maskAllText = some false) ∧
      (ReplayWarning.maskAllInputs ∈ warningsOf o ↔
        o.maskAllInputs = some false) ∧
      (ReplayWarning.blockAllMedia ∈ warningsOf o ↔
        o.blockAllMedia = some false) ∧
      (ReplayWarning.networkCaptureBodies ∈ warningsOf o ↔
        o.networkCaptureBodies = some true)) ∧
    (∀ replay flag,
      validateReplayPrivacySettings false replay flag = (replay, flag)) ∧
    (∀ flag, validateReplayPrivacySettings true none flag = (none, flag)) ∧
    (∀ r flag, effectiveReplayOptions r = none →
      validateReplayPrivacySettings true (some r) flag = (some r, flag)) ∧
    (∀ r o flag, effectiveReplayOptions r = some o → warningsOf o ≠ [] →
      r.hasStopRecording = true →
      validateReplayPrivacySettings true (some r) flag =
        (some { r with recording := false }, true)) ∧
    (∀ r o flag, effectiveReplayOptions r = some o → warningsOf o ≠ [] →
      r.hasStopRecording = false →
      validateReplayPrivacySettings true (some r) flag = (some r, flag)) ∧
    (∀ r o, effectiveReplayOptions r = some o → warningsOf o = [] →
      r.hasStartRecording = true → r.startThrows = false →
      validateReplayPrivacySettings true (some r) true =
        (some { r with recording := true }, false)) ∧
    (∀ r o, effectiveReplayOptions r = some o → warningsOf o = [] →
      (r.hasStartRecording = false ∨ r.startThrows = true) →
      validateReplayPrivacySettings true (some r) true = (some r, true)) ∧
    (∀ r o, effectiveReplayOptions r = some o → warningsOf o = [] →
      validateReplayPrivacySettings true (some r) false =
        (some r, false)) := by
  refine ⟨fun o => ?_, fun replay flag => rfl, fun flag => rfl,
    fun r flag ho => ?_, fun r o flag ho hw hs => ?_,
    fun r o flag ho hw hs => ?_, fun r o ho hw hstart hthrow => ?_,
    fun r o ho hw hre => ?_, fun r o ho hw => ?_⟩
  · by_cases h1 : o.maskAllText = some false <;>
    by_cases h2 : o.maskAllInputs = some false <;>
    by_cases h3 : o.blockAllMedia = some false <;>
    by_cases h4 : o.networkCaptureBodies = some true <;>
      simp [warningsOf, h1, h2, h3, h4]
  · simp [validateReplayPrivacySettings, ho]
  · simp [validateReplayPrivacySettings, ho, hs,
      List.length_pos.mpr hw]
  · simp [validateReplayPrivacySettings, ho, hs,
      List.length_pos.mpr hw]
  · simp [validateReplayPrivacySettings, attemptReplayResume, ho, hw,
      hstart, hthrow]
  · rcases hre with hre | hre <;>
      simp [validateReplayPrivacySettings, attemptReplayResume, ho, hw, hre]
  · simp [validateReplayPrivacySettings, ho, hw]

/-- Witness for C5: the stop branch and the successful resume branch at
concrete replay instances. -/
theorem c5_validate_characterization_witness :
    validateReplayPrivacySettings true (some replayUnsafe) false =
      (some { replayUnsafe with recording := false }, true) ∧
    validateReplayPrivacySettings true (some replaySafe) true =
      (some { replaySafe with recording := true }, false) :=
  ⟨c5_validate_characterization.2.2.2.2.1 replayUnsafe unsafeReplayOptions
      false rfl (by decide) rfl,
   c5_validate_characterization.2.2.2.2.2.2.1 replaySafe safeReplayOptions
      rfl rfl rfl rfl⟩

/-- Claim C6: the drain processes the queue in FIFO order — the outcome
list is exactly the enumerated queue mapped through the per-entry rule —
with consent each entry is re-submitted via the most specific operation for
its shape (exception, then message, then generic), without consent it is
discarded, and a failing re-capture (any `fails` oracle) never truncates
the processing of the remaining entries. -/
theorem c6_queue_drain (hc : Bool) (fails : Nat → Bool) (i : Nat)
    (q : List QueueEntry) :
    processQueuedEvents hc fails i q =
      (List.enumFrom i q).map (fun p =>
        if hc then
          ReplayOutcome.attempted (replayCaptureOp p.2.event p.2.hint)
            (!fails p.1)
        else ReplayOutcome.discarded) ∧
    (∀ e hint v, firstExcValue e = some v →
      replayCaptureOp e hint =
        CaptureOp.capturedException (excMsg v) (excStack v)) ∧
    (∀ e hint, firstExcValue e = none → eventMessageTruthy e = true →
      replayCaptureOp e hint =
        CaptureOp.capturedMessage (messageOrDefault e) e.level) ∧
    (∀ e hint, firstExcValue e = none → eventMessageTruthy e = false →
      replayCaptureOp e hint = CaptureOp.capturedEvent e hint) := by
  refine ⟨?_, fun e hint v hv => ?_, fun e hint h1 h2 => ?_,
    fun e hint h1 h2 => ?_⟩
  · induction q generalizing i with
    | nil => simp [processQueuedEvents]
    | cons ent rest ih => simp [processQueuedEvents, List.enumFrom, ih]
  · simp [replayCaptureOp, hv]
  · simp [replayCaptureOp, h1, h2]
  · simp [replayCaptureOp, h1, h2]

/-- Witness for C6: the three re-capture shapes at concrete events. -/
theorem c6_queue_drain_witness :
    replayCaptureOp excEvent 1 =
      CaptureOp.capturedException (excMsg excEventValue)
        (excStack excEventValue) ∧
    replayCaptureOp msgEvent 2 =
      CaptureOp.capturedMessage (messageOrDefault msgEvent) msgEvent.level ∧
    replayCaptureOp demoEvent 3 = CaptureOp.capturedEvent demoEvent 3 :=
  ⟨(c6_queue_drain true (fun _ => false) 0 []).2.1 excEvent 1 excEventValue
      rfl,
   (c6_queue_drain true (fun _ => false) 0 []).2.2.1 msgEvent 2 rfl rfl,
   (c6_queue_drain true (fun _ => false) 0 []).2.2.2 demoEvent 3 rfl rfl⟩

/-- The effective replay options ignore every non-option field of the
instance. -/
theorem effectiveReplayOptions_mk (inst : ReplayInstance) (a b c d : Bool) :
    effectiveReplayOptions
      { recordingOptions := inst.recordingOptions
        initialOptions := inst.initialOptions
        hasStopRecording := a
        hasStartRecording := b
        startThrows := c
        recording := d } = effectiveReplayOptions inst := rfl

/-- Re-running the replay-privacy validation on its own output changes
nothing further. -/
theorem validateReplayPrivacySettings_idem (c : Bool)
    (r : Option ReplayInstance) (fl : Bool) :
    validateReplayPrivacySettings c
      (validateReplayPrivacySettings c r fl).1
      (validateReplayPrivacySettings c r fl).2 =
    validateReplayPrivacySettings c r fl := by
  cases c with
  | false => simp [validateReplayPrivacySettings]
  | true =>
    rcases r with _ | inst
    · simp [validateReplayPrivacySettings]
    · rcases ho : effectiveReplayOptions inst with _ | opts
      · simp [validateReplayPrivacySettings, ho]
      · by_cases hw : (warningsOf opts).length > 0
        · by_cases hs : inst.hasStopRecording
          · simp [validateReplayPrivacySettings, ho, hw, hs,
              effectiveReplayOptions_mk]
          · simp [validateReplayPrivacySettings, ho, hw, hs]
        · cases fl with
          | false => simp [validateReplayPrivacySettings, ho, hw]
          | true =>
            by_cases hstart : inst.hasStartRecording
            · by_cases hth : inst.startThrows
              · simp [validateReplayPrivacySettings, attemptReplayResume,
                  ho, hw, hstart, hth]
              · simp [validateReplayPrivacySettings, attemptReplayResume,
                  ho, hw, hstart, hth, effectiveReplayOptions_mk]
            · simp [validateReplayPrivacySettings, attemptReplayResume,
                ho, hw, hstart]

/-- Counterexample to C7 as stated: computing the patch is not
side-effect-free — with preferences denied it resets the recording-guard
flag, so the integration state changes. -/
theorem c7_side_effect_counterexample :
    (buildConsentBasedConfig allDeniedConsent flaggedState).2 ≠
      flaggedState := by decide

/-- Claim C7 (amended): the derivation is deterministic — the patch depends
only on the consent state and the captured original configuration — and it
is safe to call redundantly: a second computation from the state left by the
first returns the same patch and leaves the state fixed.  It is, however,
not side-effect-free: the preferences branch resets the guard flag or runs
the replay-privacy validation. -/
theorem c7_deterministic_idempotent :
    (∀ cs st1 st2, st1.originalSentryConfig = st2.originalSentryConfig →
      (buildConsentBasedConfig cs st1).1 = (buildConsentBasedConfig cs st2).1) ∧
    (∀ cs st,
      buildConsentBasedConfig cs (buildConsentBasedConfig cs st).2 =
        buildConsentBasedConfig cs st) := by
  have hdet : ∀ cs (st1 st2 : IState),
      st1.originalSentryConfig = st2.originalSentryConfig →
      (buildConsentBasedConfig cs st1).1 = (buildConsentBasedConfig cs st2).1 := by
    intro cs st1 st2 h
    simp [buildConsentBasedConfig, h]
  refine ⟨hdet, fun cs st => ?_⟩
  refine Prod.ext (hdet cs _ _ (buildConsentBasedConfig_orig cs st)) ?_
  rw [buildConsentBasedConfig_snd, buildConsentBasedConfig_snd]
  by_cases hp : cs.preferences.getD false
  · have hv := validateReplayPrivacySettings_idem st.clientOptions.isSome
      st.replay st.replayStoppedDueToUnsafeSettings
    simp only [hp, Bool.not_true, Bool.false_eq_true, if_false]
    simp [hv]
  · simp [hp]

/-- Witness for C7: determinism applied at two distinct concrete states
sharing the same captured configuration. -/
theorem c7_deterministic_idempotent_witness :
    (buildConsentBasedConfig allGrantedConsent flaggedState).1 =
      (buildConsentBasedConfig allGrantedConsent scopedState).1 :=
  c7_deterministic_idempotent.1 allGrantedConsent flaggedState scopedState rfl

/-- Claim C8 (code bug evidence): because the change pass assigns
`currentConsentState := newConsentState` before passing
`currentConsentState.preferences` as the "previous" value, the replay
guard's preferences-specific reaction compares the new value with itself
and never runs — in every pass, including the concrete one where
preferences consent genuinely flips from false to true. -/
theorem c8_guard_reaction_dead :
    (∀ newConsentState st,
      (consentChangeTriggered newConsentState st).2 = false) ∧
    beforeChangeState.currentConsentState.preferences ≠
      newChangeConsent.preferences ∧
    (consentChangeTriggered newChangeConsent beforeChangeState).2 = false := by
  have hgen : ∀ newConsentState st,
      (consentChangeTriggered newConsentState st).2 = false := by
    intro newConsentState st
    by_cases hcond : (newConsentState.functional.getD false != st.hasConsent ||
        newConsentState != st.currentConsentState) = true
    · simp [consentChangeTriggered, hcond, handleReplayConsentChange,
        applySentryConfiguration_ccs]
    · simp [consentChangeTriggered, hcond]
  exact ⟨hgen, by decide, hgen newChangeConsent beforeChangeState⟩

/-- Claim C9: capturing the original configuration, applying the all-denied
patch and then the all-granted patch restores every consent-managed field
to its captured value; only the untouched keys (`dsn`) keep the live
options' values and `enabled` — which is not part of the captured snapshot
— is set to true. -/
theorem c9_round_trip (src options0 : ConfigObj) (st1 st2 : IState)
    (h1 : st1.originalSentryConfig = captureOriginalSentryConfig (some src))
    (h2 : st2.originalSentryConfig = captureOriginalSentryConfig (some src)) :
    applyPatch
      (applyPatch options0 (buildConsentBasedConfig allDeniedConsent st1).1)
      (buildConsentBasedConfig allGrantedConsent st2).1 =
    { captureOriginalSentryConfig (some src) with
        dsn := options0.dsn, enabled := some true } := by
  simp [applyPatch, buildConsentBasedConfig, h2, allGrantedConsent,
    captureOriginalSentryConfig, buildTrackedConfigObject]

/-- Witness for C9 at the demo configuration. -/
theorem c9_round_trip_witness :
    applyPatch
      (applyPatch demoClientOptions
        (buildConsentBasedConfig allDeniedConsent capturedOriginalState).1)
      (buildConsentBasedConfig allGrantedConsent capturedOriginalState).1 =
    { captureOriginalSentryConfig (some demoClientOptions) with
        dsn := demoClientOptions.dsn, enabled := some true } :=
  c9_round_trip demoClientOptions demoClientOptions capturedOriginalState
    capturedOriginalState rfl rfl

/-- If the validation clears a set flag, it did so by successfully calling
`startRecording`: the replay instance exists and is recording. -/
theorem validateReplayPrivacySettings_clears_flag (c : Bool)
    (r : Option ReplayInstance)
    (h : (validateReplayPrivacySettings c r true).2 = false) :
    ∃ inst, (validateReplayPrivacySettings c r true).1 = some inst ∧
      inst.recording = true := by
  cases c with
  | false => simp [validateReplayPrivacySettings] at h
  | true =>
    rcases r with _ | inst
    · simp [validateReplayPrivacySettings] at h
    · rcases ho : effectiveReplayOptions inst with _ | opts
      · simp [validateReplayPrivacySettings, ho] at h
      · by_cases hw : (warningsOf opts).length > 0
        · by_cases hs : inst.hasStopRecording <;>
            simp [validateReplayPrivacySettings, ho, hw, hs] at h
        · by_cases hstart : inst.hasStartRecording
          · by_cases hth : inst.startThrows
            · simp [validateReplayPrivacySettings, attemptReplayResume,
                ho, hw, hstart, hth] at h
            · refine ⟨{ inst with recording := true }, ?_, rfl⟩
              simp [validateReplayPrivacySettings, attemptReplayResume,
                ho, hw, hstart, hth]
          · simp [validateReplayPrivacySettings, attemptReplayResume,
              ho, hw, hstart] at h

/-- Claim C10: `checkAndResumeReplay` returns false and changes nothing when
the guard flag is unset or preferences consent is not true; otherwise it
re-runs the privacy validation, its resulting state is exactly the
validation's output, and it returns true exactly when the validation
cleared the flag — in which case recording was actually restarted. -/
theorem c10_checkAndResumeReplay (st : IState) :
    (st.replayStoppedDueToUnsafeSettings = false →
      checkAndResumeReplay st = (false, st)) ∧
    (st.currentConsentState.preferences.getD false = false →
      checkAndResumeReplay st = (false, st)) ∧
    (st.replayStoppedDueToUnsafeSettings = true →
      st.currentConsentState.preferences.getD false = true →
      (checkAndResumeReplay st).2 =
        { st with
            replay := (validateReplayPrivacySettings st.clientOptions.isSome
              st.replay true).1
            replayStoppedDueToUnsafeSettings :=
              (validateReplayPrivacySettings st.clientOptions.isSome
                st.replay true).2 } ∧
      (checkAndResumeReplay st).1 =
        !(validateReplayPrivacySettings st.clientOptions.isSome
          st.replay true).2) ∧
    ((checkAndResumeReplay st).1 = true →
      st.replayStoppedDueToUnsafeSettings = true ∧
      st.currentConsentState.preferences.getD false = true ∧
      (checkAndResumeReplay st).2.replayStoppedDueToUnsafeSettings = false ∧
      ∃ inst, (checkAndResumeReplay st).2.replay = some inst ∧
        inst.recording = true) := by
  refine ⟨fun h => ?_, fun h => ?_, fun h1 h2 => ?_, fun h => ?_⟩
  · simp [checkAndResumeReplay, h]
  · cases hf : st.replayStoppedDueToUnsafeSettings <;>
      simp [checkAndResumeReplay, hf, h]
  · constructor <;> simp [checkAndResumeReplay, h1, h2]
  · cases hf : st.replayStoppedDueToUnsafeSettings with
    | false => simp [checkAndResumeReplay, hf] at h
    | true =>
      cases hp : st.currentConsentState.preferences.getD false with
      | false => simp [checkAndResumeReplay, hf, hp] at h
      | true =>
        have hval : (validateReplayPrivacySettings st.clientOptions.isSome
            st.replay true).2 = false := by
          simpa [checkAndResumeReplay, hf, hp] using h
        obtain ⟨inst, hinst, hrec⟩ :=
          validateReplayPrivacySettings_clears_flag st.clientOptions.isSome
            st.replay hval
        refine ⟨rfl, rfl, ?_, inst, ?_, hrec⟩
        · simp [checkAndResumeReplay, hf, hp, hval]
        · simp [checkAndResumeReplay, hf, hp, hinst]

/-- Witness for C10: at the flagged state with safe settings the manual
check resumes recording and reports success. -/
theorem c10_checkAndResumeReplay_witness :
    (checkAndResumeReplay flaggedState).2.replayStoppedDueToUnsafeSettings
      = false ∧
    (checkAndResumeReplay scopedState) = (false, scopedState) :=
  ⟨((c10_checkAndResumeReplay flaggedState).2.2.2 (by decide)).2.2.1,
   (c10_checkAndResumeReplay scopedState).1 rfl⟩
